import Mathlib

/-!
# Verification of the CHD risk prediction service

Shallow embedding of the rule-based layer of the CHD prediction servers:
the categorical encoder, the risk tier classifier, the risk factor
analyzers, the recommendation generators and the Flask preprocessing
pipeline, translated from:

* `backend/app.py` (FastAPI variant),
* `backend/simple_api.py` and `backend/chd_prediction_api.py`
  (Flask variants; their `preprocess_input` and `analyze_risk_factors`
  are textually identical),
* `chd_prediction_api.py` at the repository root (Flask variant with the
  uncapped recommendation generator).

Python floats appear as `ℚ` (every constant in the rule tables is a
decimal literal), absent JSON keys as `Option`, raised exceptions as
`Except`.  The serialized model and scaler are opaque external artifacts
and are not modelled; every claim below concerns the rule layer around
them.
-/

/-- A scalar JSON value as carried in a request record: a number or a
string.  (The requests relevant to the claims contain only these two
shapes.) -/
inductive JVal where
  | num (q : ℚ)
  | str (s : String)
deriving DecidableEq, Repr

/-- First-match association-list lookup, the embedding of a Python
`dict` lookup / `key in data` test on a request record. -/
def alookup {α : Type} : List (String × α) → String → Option α
  | [], _ => none
  | (k, v) :: rest, key => if k = key then some v else alookup rest key

/-- Numeric value of a decimal digit character. -/
def digitVal (c : Char) : ℕ := c.toNat - 48

/-- Horner evaluation of a digit string. -/
def digitsVal : List Char → ℕ → ℕ
  | [], acc => acc
  | c :: cs, acc => digitsVal cs (10 * acc + digitVal c)

/-- Parse an unsigned decimal literal (`"120"`, `"24.9"`, `"18."`,
`".5"`); anything else is a parse failure.  This models the fragment of
Python `float(...)` / `pd.to_numeric` string parsing exercised by the
service (exponents, specials and surrounding whitespace are not used by
any claim and are omitted). -/
def parseFloatCore (cs : List Char) : Option ℚ :=
  let intPart := cs.takeWhile Char.isDigit
  let rest := cs.dropWhile Char.isDigit
  match rest with
  | [] => if intPart = [] then none else some (digitsVal intPart 0)
  | '.' :: fracPart =>
      if fracPart.all Char.isDigit ∧ (intPart ≠ [] ∨ fracPart ≠ []) then
        some ((digitsVal intPart 0 : ℚ) +
          (digitsVal fracPart 0 : ℚ) / (10 ^ fracPart.length))
      else none
  | _ => none

/-- Parse a signed decimal literal, as Python `float(str)` does. -/
def parseFloat (s : String) : Option ℚ :=
  match s.data with
  | '-' :: cs => (parseFloatCore cs).map (fun q => -q)
  | '+' :: cs => parseFloatCore cs
  | cs => parseFloatCore cs

/-- Python `float(value)` on a JSON scalar: numbers pass through,
strings are parsed, and a non-numeric string raises `ValueError`
(`none` here). -/
def pyFloat : JVal → Option ℚ
  | .num q => some q
  | .str s => parseFloat s

/-- Python `str.upper()` (the tokens involved are ASCII): uppercase
every character of the string. -/
def pyUpper (s : String) : String := ⟨s.data.map Char.toUpper⟩

/-! ## Risk tier classifiers

`backend/app.py` `predict` (lines 503-510) and the Flask variants
(`backend/chd_prediction_api.py` lines 467-474, `backend/simple_api.py`
lines 213-220) derive the tier label from the disease probability with
different thresholds and different labels. -/

/-- Tier classification of `backend/app.py` `predict`:
`disease_prob >= 0.4` is high, `>= 0.2` is medium, otherwise low. -/
def risk_level_fastapi (p : ℚ) : String :=
  if 2/5 ≤ p then "HIGH RISK"
  else if 1/5 ≤ p then "MEDIUM RISK"
  else "LOW RISK"

/-- Tier classification of the Flask variants: `p < 0.3` is low,
`p < 0.7` is medium, otherwise high. -/
def risk_level_flask (p : ℚ) : String :=
  if p < 3/10 then "Low"
  else if p < 7/10 then "Medium"
  else "High"

/-- Rank of a FastAPI tier label in the ordering Low < Medium < High. -/
def tier_rank_fastapi (s : String) : ℕ :=
  if s = "HIGH RISK" then 2 else if s = "MEDIUM RISK" then 1 else 0

/-- Rank of a Flask tier label in the ordering Low < Medium < High. -/
def tier_rank_flask (s : String) : ℕ :=
  if s = "High" then 2 else if s = "Medium" then 1 else 0

/-! ## Categorical encoder (`backend/app.py`) -/

/-- `CATEGORICAL_MAPPINGS` of `backend/app.py` (lines 273-280). -/
def CATEGORICAL_MAPPINGS : List (String × List (String × ℚ)) :=
  [("sex", [("M", 1), ("F", 0), ("Male", 1), ("Female", 0)]),
   ("is_smoking", [("YES", 1), ("NO", 0), ("Yes", 1), ("No", 0)]),
   ("BPMeds", [("YES", 1), ("NO", 0), ("Yes", 1), ("No", 0)]),
   ("prevalentStroke", [("YES", 1), ("NO", 0), ("Yes", 1), ("No", 0)]),
   ("prevalentHyp", [("YES", 1), ("NO", 0), ("Yes", 1), ("No", 0)]),
   ("diabetes", [("YES", 1), ("NO", 0), ("Yes", 1), ("No", 0)])]

/-- Payload of the `ValueError` raised by `map_categorical_to_numeric`:
the Python message interpolates the offending value, the field name and
`list(mapping.keys())`. -/
structure CatError where
  value : String
  field : String
  valid : List String
deriving DecidableEq, Repr

/-- The loop of `map_categorical_to_numeric`: first mapping key whose
uppercasing matches the uppercased value. -/
def lookupCaseInsensitive (mapping : List (String × ℚ)) (value : String) : Option ℚ :=
  match mapping with
  | [] => none
  | (k, n) :: rest =>
      if pyUpper value = pyUpper k then some n else lookupCaseInsensitive rest value

/-- `map_categorical_to_numeric` of `backend/app.py` (lines 329-347):
case-insensitive lookup in the field table, `ValueError` when no key
matches, and the value returned unchanged when the field has no table. -/
def map_categorical_to_numeric (value : String) (fieldName : String) : Except CatError JVal :=
  match alookup CATEGORICAL_MAPPINGS fieldName with
  | some mapping =>
      match lookupCaseInsensitive mapping value with
      | some n => .ok (.num n)
      | none => .error ⟨value, fieldName, mapping.map Prod.fst⟩
  | none => .ok (.str value)

/-! ## FastAPI risk factor analysis (`backend/app.py` `predict`) -/

/-- The `"max"` entries of `NORMAL_RANGES` in `backend/app.py`
(lines 31-47).  The `education`, `sex` and `is_smoking` entries of the
table carry no `"max"` key and therefore do not appear here; the
boolean features carry `max = 0`. -/
def NORMAL_RANGES_max : List (String × ℚ) :=
  [("age", 120), ("cigsPerDay", 0), ("BPMeds", 0), ("prevalentStroke", 0),
   ("prevalentHyp", 0), ("diabetes", 0), ("totChol", 200), ("sysBP", 120),
   ("diaBP", 80), ("BMI", 249/10), ("heartRate", 100), ("glucose", 100)]

/-- The `"min"` entries of `NORMAL_RANGES` in `backend/app.py`: kept for
reference; the `predict` loop never reads them. -/
def NORMAL_RANGES_min : List (String × ℚ) :=
  [("age", 20), ("cigsPerDay", 0), ("BPMeds", 0), ("prevalentStroke", 0),
   ("prevalentHyp", 0), ("diabetes", 0), ("totChol", 125), ("sysBP", 90),
   ("diaBP", 60), ("BMI", 37/2), ("heartRate", 60), ("glucose", 70)]

/-- The fully encoded patient record assembled by `predict` in
`backend/app.py` (`data_dict`, lines 455-471): all fifteen fields
numeric after categorical mapping. -/
structure EncodedRecord where
  age : ℚ
  education : ℚ
  sex : ℚ
  is_smoking : ℚ
  cigsPerDay : ℚ
  BPMeds : ℚ
  prevalentStroke : ℚ
  prevalentHyp : ℚ
  diabetes : ℚ
  totChol : ℚ
  sysBP : ℚ
  diaBP : ℚ
  BMI : ℚ
  heartRate : ℚ
  glucose : ℚ
deriving DecidableEq, Repr

/-- `data_dict.items()`: the fifteen fields in insertion order. -/
def data_dict (r : EncodedRecord) : List (String × ℚ) :=
  [("age", r.age), ("education", r.education), ("sex", r.sex),
   ("is_smoking", r.is_smoking), ("cigsPerDay", r.cigsPerDay),
   ("BPMeds", r.BPMeds), ("prevalentStroke", r.prevalentStroke),
   ("prevalentHyp", r.prevalentHyp), ("diabetes", r.diabetes),
   ("totChol", r.totChol), ("sysBP", r.sysBP), ("diaBP", r.diaBP),
   ("BMI", r.BMI), ("heartRate", r.heartRate), ("glucose", r.glucose)]

/-- A risk-factor dict appended by the `predict` loop of
`backend/app.py`: the range-check entries carry a `normal_max` key, the
categorical special-case entries do not (hence the `Option`). -/
structure AppRiskFactor where
  feature : String
  value : ℚ
  normal_max : Option ℚ
  status : String
deriving DecidableEq, Repr

/-- Body of the risk-factor loop of `predict` (`backend/app.py` lines
527-558) for one `(feature, value)` item: the range check appends a
`'High'` entry when the value is strictly above the `"max"` of
`NORMAL_RANGES` (there is no check against `"min"`), then each of the
three categorical special cases appends an entry when the encoded value
is 1. -/
def riskFactorChecks (f : String) (v : ℚ) : List AppRiskFactor :=
  (match alookup NORMAL_RANGES_max f with
   | some normalMax => if normalMax < v then [⟨f, v, some normalMax, "High"⟩] else []
   | none => [])
  ++ (if f = "is_smoking" ∧ v = 1 then [⟨f, v, none, "High"⟩] else [])
  ++ (if f = "prevalentHyp" ∧ v = 1 then [⟨f, v, none, "High"⟩] else [])
  ++ (if f = "diabetes" ∧ v = 1 then [⟨f, v, none, "High"⟩] else [])

/-- The full risk-factor list assembled by `predict` in
`backend/app.py`: the loop body applied to the fifteen items of
`data_dict` in order. -/
def app_risk_factors (r : EncodedRecord) : List AppRiskFactor :=
  (data_dict r).flatMap (fun fv => riskFactorChecks fv.1 fv.2)

/-! ## Recommendation generation (`backend/app.py`) -/

/-- A recommendation record `{title, message, priority}`.  (The
preventive entries of `backend/app.py` additionally embed the advice
dict; that payload is not read by any claim and is elided.) -/
structure Recommendation where
  title : String
  message : String
  priority : String
deriving DecidableEq, Repr

/-- The advice dict returned by `generate_feature_specific_prevention`
(`backend/app.py` lines 54-93). -/
structure Advice where
  diet : String
  lifestyle : String
  monitoring : String
deriving DecidableEq, Repr

/-- `generate_feature_specific_prevention` of `backend/app.py`: static
per-feature advice with a generic fallback.  The `current_value`,
`normal_max` and `risk_threshold` arguments are accepted and ignored,
as in the source. -/
def generate_feature_specific_prevention (f : String) (_currentValue _normalMax _riskThreshold : ℚ) : Advice :=
  if f = "totChol" then
    ⟨"Focus on soluble fiber (oats, beans, fruits), omega-3 fatty acids (fish, nuts), and limit saturated fats",
     "Regular aerobic exercise can help lower cholesterol naturally",
     "Check cholesterol levels annually or as recommended by your doctor"⟩
  else if f = "sysBP" then
    ⟨"Reduce sodium intake to less than 2,300mg daily, increase potassium-rich foods (bananas, spinach)",
     "Regular exercise, stress management, and maintaining healthy weight",
     "Monitor blood pressure monthly at home and during doctor visits"⟩
  else if f = "diaBP" then
    ⟨"DASH diet (Dietary Approaches to Stop Hypertension) with low sodium",
     "Aerobic exercise, meditation, and adequate sleep",
     "Track diastolic pressure trends over time"⟩
  else if f = "BMI" then
    ⟨"Balanced diet with portion control and mindful eating",
     "150+ minutes of moderate exercise weekly, strength training 2x/week",
     "Weigh yourself weekly and track trends"⟩
  else if f = "heartRate" then
    ⟨"Limit caffeine and stimulants that can increase heart rate",
     "Regular cardiovascular exercise to strengthen heart muscle",
     "Monitor resting heart rate trends, especially during stress"⟩
  else if f = "glucose" then
    ⟨"Low glycemic index foods, complex carbohydrates, regular meal timing",
     "Regular exercise improves insulin sensitivity",
     "Annual glucose testing, more frequent if family history of diabetes"⟩
  else
    ⟨"Maintain balanced nutrition", "Stay physically active", "Regular health checkups"⟩

/-- `generate_preventive_recommendations` of `backend/app.py` (lines
95-135): for every item of the data dict whose feature has a `"max"`
in `NORMAL_RANGES` and whose value is strictly above 85% of that max
and at most the max, emit a monitoring recommendation built from the
diet advice.  (The Python builds an intermediate `features_to_monitor`
list and then maps over it; the fusion into one pass is
behavior-preserving.  Its `isinstance(value, (int, float))` guard is
always true here since encoded values are numeric.) -/
def generate_preventive_recommendations (data : List (String × ℚ)) : List Recommendation :=
  data.flatMap (fun fv =>
    match alookup NORMAL_RANGES_max fv.1 with
    | some normalMax =>
        if normalMax * (17/20) < fv.2 ∧ fv.2 ≤ normalMax then
          [⟨"Monitor Your " ++ fv.1,
            "Your " ++ fv.1 ++ " is within normal range but approaching upper limits. " ++
              (generate_feature_specific_prevention fv.1 fv.2 normalMax (normalMax * (11/10))).diet,
            "preventive"⟩]
        else []
    | none => [])

/-- The tier-level boilerplate block of `generate_recommendations` in
`backend/app.py` (lines 141-182). -/
def fastapi_base_recommendations (risk_level : String) : List Recommendation :=
  if risk_level = "HIGH RISK" then
      [⟨"Immediate Medical Consultation",
        "Please consult with a healthcare provider immediately for comprehensive cardiovascular assessment.",
        "urgent"⟩,
       ⟨"Lifestyle Changes",
        "Focus on diet, exercise, and stress management under medical supervision.",
        "high"⟩]
    else if risk_level = "MEDIUM RISK" then
      [⟨"Schedule Medical Consultation",
        "Schedule an appointment with your healthcare provider within the next month for cardiovascular assessment.",
        "medium"⟩,
       ⟨"Lifestyle Modifications",
        "Begin implementing heart-healthy diet changes and regular exercise routine.",
        "medium"⟩,
       ⟨"Monitor Health Metrics",
        "Regularly monitor your blood pressure, cholesterol, and other key health indicators.",
        "medium"⟩]
    else if risk_level = "LOW RISK" then
      [⟨"Maintain Current Health Status",
        "Congratulations! Your current health profile shows low risk for heart disease. Continue maintaining your healthy lifestyle.",
        "maintenance"⟩]
    else []

/-- The per-risk-factor loop of `generate_recommendations` in
`backend/app.py` (lines 184-215). -/
def fastapi_factor_recommendations (risk_factors : List AppRiskFactor) : List Recommendation :=
  risk_factors.flatMap (fun factor =>
    if factor.feature = "is_smoking" ∧ factor.status = "High" then
      [⟨"Quit Smoking",
        "Smoking significantly increases cardiovascular risk. Consider smoking cessation programs.",
        "high"⟩]
    else if factor.feature = "BMI" ∧ factor.status = "High" then
      [⟨"Weight Management",
        "Maintain a healthy weight through balanced diet and regular exercise.",
        "medium"⟩]
    else if (factor.feature = "sysBP" ∨ factor.feature = "diaBP") ∧ factor.status = "High" then
      [⟨"Blood Pressure Management",
        "Monitor blood pressure regularly and follow medical advice for hypertension management.",
        "high"⟩]
    else if factor.feature = "totChol" ∧ factor.status = "High" then
      [⟨"Cholesterol Management",
        "Follow a heart-healthy diet and consider cholesterol management strategies.",
        "medium"⟩]
    else if factor.feature = "glucose" ∧ factor.status = "High" then
      [⟨"Blood Sugar Management",
        "Monitor blood glucose levels and consider dietary changes to manage blood sugar.",
        "medium"⟩]
    else [])

/-- The conditional preventive block of `generate_recommendations` in
`backend/app.py` (lines 217-220): it requires `risk_level == 'Low'`
(note: NOT the `'LOW RISK'` label that `predict` produces) and a truthy
`data` argument.  `data = none` models the Python default `data=None`;
an empty dict is falsy. -/
def fastapi_preventive_block (risk_level : String)
    (data : Option (List (String × ℚ))) : List Recommendation :=
  match data with
  | some d => if risk_level = "Low" ∧ d ≠ [] then generate_preventive_recommendations d else []
  | none => []

/-- `generate_recommendations` of `backend/app.py` (lines 137-222):
tier boilerplate, then one entry per matched risk factor, then the
conditional preventive block; the assembled list is truncated to its
first 8 entries (`recommendations[:8]`). -/
def generate_recommendations_fastapi (risk_factors : List AppRiskFactor)
    (risk_level : String) (data : Option (List (String × ℚ))) : List Recommendation :=
  (fastapi_base_recommendations risk_level
    ++ fastapi_factor_recommendations risk_factors
    ++ fastapi_preventive_block risk_level data).take 8

/-! ## Root-level server (`chd_prediction_api.py` at the repository root) -/

/-- A risk-factor entry as consumed by the root-level
`generate_recommendations` (only the `feature` and `value` keys are
read; the other keys of the dicts built by `analyze_feature_risk` are
elided). -/
structure RootRiskFactor where
  feature : String
  value : ℚ
deriving DecidableEq, Repr

/-- A recommendation of the root-level server: `{type, title, message}`. -/
structure RootRecommendation where
  kind : String
  title : String
  message : String
deriving DecidableEq, Repr

/-- The per-risk-factor loop of the root-level
`generate_recommendations` (`chd_prediction_api.py` lines 367-394). -/
def root_factor_recommendations (risk_factors : List RootRiskFactor) : List RootRecommendation :=
  risk_factors.flatMap (fun rf =>
      if rf.feature = "sysBP" ∧ 140 < rf.value then
        [⟨"warning", "High Blood Pressure",
          "Your systolic blood pressure is elevated. Consider lifestyle changes and consult a doctor."⟩]
      else if rf.feature = "totChol" ∧ 240 < rf.value then
        [⟨"warning", "High Cholesterol",
          "Your cholesterol levels are high. Consider dietary changes and regular exercise."⟩]
      else if rf.feature = "BMI" ∧ 30 < rf.value then
        [⟨"warning", "Obesity Risk",
          "Your BMI indicates obesity. Weight management and exercise are recommended."⟩]
      else if rf.feature = "cigsPerDay" ∧ 0 < rf.value then
        [⟨"critical", "Smoking Cessation",
          "Smoking significantly increases CHD risk. Consider smoking cessation programs."⟩]
      else [])

/-- `generate_recommendations` of the root-level `chd_prediction_api.py`
(lines 355-415): an urgent entry when more than three risk factors were
counted, one warning per matched risk factor, then three general info
entries.  The returned list is NOT truncated anywhere.  (The dict key
`type` is rendered as `kind`; the unused `prediction` argument is
dropped.) -/
def generate_recommendations_root (risk_factors : List RootRiskFactor)
    (total_risk_factors : ℕ) : List RootRecommendation :=
  (if 3 < total_risk_factors then
    [⟨"urgent", "High Risk Detected",
      "Multiple risk factors detected. Please consult with a healthcare professional immediately."⟩]
   else [])
  ++ root_factor_recommendations risk_factors
  ++ [⟨"info", "Regular Exercise",
       "Aim for at least 150 minutes of moderate exercise per week."⟩,
      ⟨"info", "Healthy Diet",
       "Focus on fruits, vegetables, whole grains, and lean proteins."⟩,
      ⟨"info", "Regular Checkups",
       "Schedule regular health checkups with your healthcare provider."⟩]

/-! ## Flask risk factor analysis

`analyze_risk_factors` as it appears, textually identically, in
`backend/simple_api.py` (lines 87-137) and in
`backend/chd_prediction_api.py` (lines 93-143). -/

/-- The `normal_ranges` table of the Flask `analyze_risk_factors`, in
its iteration order. -/
def FLASK_RANGES : List (String × ℚ × ℚ) :=
  [("age", 18, 65), ("totChol", 0, 200), ("sysBP", 90, 140),
   ("diaBP", 60, 90), ("BMI", 37/2, 249/10), ("heartRate", 60, 100),
   ("glucose", 70, 100)]

/-- A risk-factor dict of the Flask analyzer.  Continuous entries carry
the parsed float, categorical ones the string `'Yes'`; the
`normal_range` display string of the source dicts is not read by any
claim and is elided. -/
structure FlaskRiskFactor where
  feature : String
  value : JVal
  status : String
deriving DecidableEq, Repr

/-- One iteration of the Flask range loop: skip an absent feature, let
`float(...)` raise on an unparsable value, append a `'High'` entry
strictly above the max and a `'Low'` entry strictly below the min,
nothing inside `[min, max]`. -/
def rangeCheck (f : String) (lo hi : ℚ) (data : List (String × JVal)) :
    Except String (List FlaskRiskFactor) :=
  match alookup data f with
  | none => .ok []
  | some v =>
      match pyFloat v with
      | none => .error "ValueError: could not convert value to float"
      | some q =>
          .ok (if q < lo ∨ hi < q then
                 [⟨f, .num q, if hi < q then "High" else "Low"⟩]
               else [])

/-- The Flask range loop over a table of `(feature, min, max)` rows. -/
def rangeChecks (rows : List (String × ℚ × ℚ)) (data : List (String × JVal)) :
    Except String (List FlaskRiskFactor) :=
  match rows with
  | [] => .ok []
  | (f, lo, hi) :: rest => do
      let xs ← rangeCheck f lo hi data
      let ys ← rangeChecks rest data
      return xs ++ ys

/-- One categorical check of the Flask analyzer:
`data.get(key) == 'YES'` (exact, case-sensitive comparison) appends a
`'High'` entry under the display name `outName`. -/
def catCheck (data : List (String × JVal)) (key outName : String) : List FlaskRiskFactor :=
  if alookup data key = some (.str "YES") then [⟨outName, .str "Yes", "High"⟩] else []

/-- `analyze_risk_factors` of the Flask variants: the range loop over
`normal_ranges` followed by the three categorical checks. -/
def analyze_risk_factors (data : List (String × JVal)) :
    Except String (List FlaskRiskFactor) := do
  let xs ← rangeChecks FLASK_RANGES data
  return xs ++ catCheck data "is_smoking" "smoking"
     ++ catCheck data "diabetes" "diabetes"
     ++ catCheck data "prevalentHyp" "hypertension"

/-- Decidable statement that every ranged feature present in the record
parses as a float (the hypothesis under which the Flask analyzer cannot
raise). -/
def all_ranged_parse (data : List (String × JVal)) : Bool :=
  FLASK_RANGES.all (fun row =>
    match alookup data row.1 with
    | some v => (pyFloat v).isSome
    | none => true)

/-! ## Flask preprocessing (`preprocess_input`)

`preprocess_input` as it appears, textually identically, in
`backend/simple_api.py` (lines 48-85) and in
`backend/chd_prediction_api.py` (lines 54-91). -/

/-- The exact-match categorical tables of the Flask `preprocess_input`. -/
def FLASK_CATEGORICAL : List (String × List (String × ℚ)) :=
  [("sex", [("M", 1), ("F", 0)]),
   ("is_smoking", [("YES", 1), ("NO", 0)]),
   ("BPMeds", [("YES", 1), ("NO", 0)]),
   ("prevalentStroke", [("YES", 1), ("NO", 0)]),
   ("prevalentHyp", [("YES", 1), ("NO", 0)]),
   ("diabetes", [("YES", 1), ("NO", 0)])]

/-- The `numeric_fields` list of the Flask `preprocess_input`. -/
def NUMERIC_FIELDS : List String :=
  ["age", "cigsPerDay", "totChol", "sysBP", "diaBP", "BMI", "heartRate", "glucose"]

/-- The ordered feature-name list loaded from the serialized artifact
`data/feature_columns.pkl`.  The artifact is produced by
`backend/train_model.py` (lines 37-41), whose `feature_columns` list is
reproduced here verbatim; no claim depends on the particular order,
only on it being a fixed list of the fifteen field names. -/
def FEATURE_COLUMNS : List String :=
  ["age", "education", "sex", "is_smoking", "cigsPerDay", "BPMeds",
   "prevalentStroke", "prevalentHyp", "diabetes", "totChol", "sysBP",
   "diaBP", "BMI", "heartRate", "glucose"]

/-- `pandas.Series.map(mapping)` on one cell: an exact dict-key lookup;
any value that is not a key of the dict (a differently cased token, or
a number) becomes `NaN` (`none`). -/
def seriesMap (mapping : List (String × ℚ)) (v : JVal) : Option ℚ :=
  match v with
  | .str s => alookup mapping s
  | .num _ => none

/-- One cell of the Flask `preprocess_input` dataframe after the column
transformations: categorical columns go through `Series.map`, the
`education` column and the `numeric_fields` columns through
`pd.to_numeric(errors='coerce')` (numbers pass, strings are parsed,
failures become `NaN`).  The final branch is unreachable for the
fifteen feature columns. -/
def flaskCell (col : String) (v : JVal) : Option ℚ :=
  match alookup FLASK_CATEGORICAL col with
  | some mapping => seriesMap mapping v
  | none =>
      if col = "education" ∨ NUMERIC_FIELDS.contains col then pyFloat v
      else pyFloat v

/-- `preprocess_input` of the Flask variants: when a required feature
column is absent, `df[feature_columns]` raises `KeyError`, the
surrounding `except` returns `None`, and the handler answers 400;
otherwise every `NaN` produced by the per-column transformations is
replaced by 0 (`fillna(0)`) and the ordered numeric vector is
returned. -/
def preprocess_input_flask (data : List (String × JVal)) : Option (List ℚ) :=
  if FEATURE_COLUMNS.all (fun c => (alookup data c).isSome) then
    some (FEATURE_COLUMNS.map (fun c =>
      match alookup data c with
      | some v => (flaskCell c v).getD 0
      | none => 0))
  else none

/-- The branch structure of the Flask `/predict` handler once the model
artifact is loaded: `preprocess_input` returning `None` is answered
with HTTP 400; otherwise inference runs on the returned vector (the
opaque model call is assumed to succeed) and the handler then calls
`analyze_risk_factors(data)` on the RAW record — if that raises, the
surrounding `except` answers HTTP 500 — and otherwise assembles the
JSON response and answers HTTP 200. -/
def flask_predict_status (data : List (String × JVal)) : ℕ :=
  match preprocess_input_flask data with
  | none => 400
  | some _ =>
      match analyze_risk_factors data with
      | .error _ => 500
      | .ok _ => 200

/-! ## Concrete request records used by the witnesses and
counterexamples -/

/-- A full Flask request record with healthy values everywhere, with
the `is_smoking` and `glucose` cells left as parameters. -/
def mkFlaskRecord (smoking glucoseV : JVal) : List (String × JVal) :=
  [("age", .num 50), ("education", .num 2), ("sex", .str "M"),
   ("is_smoking", smoking), ("cigsPerDay", .num 0), ("BPMeds", .str "NO"),
   ("prevalentStroke", .str "NO"), ("prevalentHyp", .str "NO"),
   ("diabetes", .str "NO"), ("totChol", .num 170), ("sysBP", .num 110),
   ("diaBP", .num 70), ("BMI", .num 22), ("heartRate", .num 65),
   ("glucose", glucoseV)]

/-- A Flask request record with every continuous value inside its
normal range except `sysBP = 200`. -/
def flaskBP200 : List (String × JVal) :=
  [("age", .num 50), ("education", .num 2), ("sex", .str "M"),
   ("is_smoking", .str "NO"), ("cigsPerDay", .num 0), ("BPMeds", .str "NO"),
   ("prevalentStroke", .str "NO"), ("prevalentHyp", .str "NO"),
   ("diabetes", .str "NO"), ("totChol", .num 170), ("sysBP", .num 200),
   ("diaBP", .num 70), ("BMI", .num 22), ("heartRate", .num 65),
   ("glucose", .num 80)]

/-- An encoded FastAPI record with `sysBP = 50`, strictly below the
`NORMAL_RANGES` minimum of 90, and everything else inside range. -/
def lowBPRecord : EncodedRecord :=
  ⟨35, 2, 0, 0, 0, 0, 0, 0, 0, 170, 50, 70, 22, 65, 80⟩

/-- An encoded FastAPI record with `diabetes = 1` and
`prevalentHyp = 1` and healthy continuous values. -/
def diabeticRecord : EncodedRecord :=
  ⟨35, 2, 0, 0, 0, 0, 0, 1, 1, 170, 110, 70, 22, 65, 80⟩

/-- An encoded healthy data dict whose `heartRate = 95` sits strictly
between 85% and 100% of its normal maximum of 100, while every other
feature is below 85% of its maximum. -/
def demoLowData : List (String × ℚ) :=
  data_dict ⟨35, 2, 0, 0, 0, 0, 0, 0, 0, 160, 100, 65, 20, 95, 80⟩

/-- An all-healthy all-numeric Flask record. -/
def healthyFlaskRecord : List (String × JVal) :=
  mkFlaskRecord (.str "NO") (.num 80)

/-! ## Helper lemmas -/

/-- The FastAPI tier classifier only ever produces its three labels. -/
lemma risk_level_fastapi_cases (p : ℚ) :
    risk_level_fastapi p = "LOW RISK" ∨ risk_level_fastapi p = "MEDIUM RISK" ∨
      risk_level_fastapi p = "HIGH RISK" := by
  unfold risk_level_fastapi
  split_ifs <;> simp

/-- The Flask tier classifier only ever produces its three labels. -/
lemma risk_level_flask_cases (p : ℚ) :
    risk_level_flask p = "Low" ∨ risk_level_flask p = "Medium" ∨
      risk_level_flask p = "High" := by
  unfold risk_level_flask
  split_ifs <;> simp

/-- The case-insensitive lookup reads its argument only through
`pyUpper`. -/
lemma lookupCaseInsensitive_congr (mapping : List (String × ℚ)) {v1 v2 : String}
    (h : pyUpper v1 = pyUpper v2) :
    lookupCaseInsensitive mapping v1 = lookupCaseInsensitive mapping v2 := by
  induction mapping with
  | nil => rfl
  | cons kv rest ih =>
      obtain ⟨k, n⟩ := kv
      simp only [lookupCaseInsensitive, h, ih]

/-- The Flask range loop succeeds on every record whose present ranged
values all parse. -/
lemma rangeChecks_ok (rows : List (String × ℚ × ℚ)) (data : List (String × JVal))
    (h : rows.all (fun row =>
      match alookup data row.1 with
      | some v => (pyFloat v).isSome
      | none => true) = true) :
    ∃ l, rangeChecks rows data = .ok l := by
  induction rows with
  | nil => exact ⟨[], rfl⟩
  | cons row rest ih =>
      obtain ⟨f, lo, hi⟩ := row
      simp only [List.all_cons, Bool.and_eq_true] at h
      obtain ⟨hf, hrest⟩ := h
      obtain ⟨l, hl⟩ := ih hrest
      simp only [rangeChecks, rangeCheck]
      rcases hv : alookup data f with _ | v
      · exact ⟨l, by simp only [hv, hl]; rfl⟩
      · rcases hq : pyFloat v with _ | q
        · rw [hv] at hf
          simp [hq] at hf
        · exact ⟨(if q < lo ∨ hi < q then
              [⟨f, .num q, if hi < q then "High" else "Low"⟩] else []) ++ l,
            by simp only [hv, hq, hl]; rfl⟩

/-- Record with `sysBP = 200` and every other field healthy, encoded
for the FastAPI loop. -/
def bp200Record : EncodedRecord :=
  ⟨35, 2, 0, 0, 0, 0, 0, 0, 0, 170, 200, 70, 22, 65, 80⟩

/-- Length of the root factor loop on `k` copies of a high-`sysBP`
risk factor: one warning each. -/
lemma root_factor_recommendations_replicate (k : ℕ) :
    (root_factor_recommendations (List.replicate k ⟨"sysBP", 150⟩)).length = k := by
  induction k with
  | zero => rfl
  | succ n ih =>
      have hstep : root_factor_recommendations (List.replicate (n + 1) ⟨"sysBP", 150⟩) =
          root_factor_recommendations [⟨"sysBP", 150⟩]
            ++ root_factor_recommendations (List.replicate n ⟨"sysBP", 150⟩) := by
        rw [List.replicate_succ]
        simp [root_factor_recommendations]
      rw [hstep, List.length_append, ih]
      have h1 : (root_factor_recommendations [⟨"sysBP", 150⟩]).length = 1 := rfl
      rw [h1]
      omega

/-! ## Claims -/

/-- C2: the Risk Tier Classifier is a pure, monotonic function of the
disease probability: for `p1 < p2` the tier of `p1` is at most the tier
of `p2` in the ordering Low < Medium < High, in both the FastAPI
(0.2/0.4, `predict` of `backend/app.py`) and the Flask (0.3/0.7)
threshold schemes. -/
theorem C2_tier_monotonic (p1 p2 : ℚ) (h : p1 < p2) :
    tier_rank_fastapi (risk_level_fastapi p1) ≤ tier_rank_fastapi (risk_level_fastapi p2) ∧
    tier_rank_flask (risk_level_flask p1) ≤ tier_rank_flask (risk_level_flask p2) := by
  constructor
  · unfold risk_level_fastapi
    split_ifs <;> first | decide | linarith
  · unfold risk_level_flask
    split_ifs <;> first | decide | linarith

/-- Witness for C2 at the concrete probabilities 0 and 1. -/
theorem C2_witness : ((0 : ℚ) < 1) ∧
    (tier_rank_fastapi (risk_level_fastapi 0) ≤ tier_rank_fastapi (risk_level_fastapi 1) ∧
     tier_rank_flask (risk_level_flask 0) ≤ tier_rank_flask (risk_level_flask 1)) :=
  ⟨by norm_num, C2_tier_monotonic 0 1 (by norm_num)⟩

/-- C7 (amended): both tier classifiers return exactly one of their
three tier labels for EVERY rational probability — in particular they
do not fail closed outside `[0, 1]` but silently assign a tier there
(probability 3 is classified as high, -1 as low, in both variants). -/
theorem C7_tier_totality :
    (∀ p : ℚ, risk_level_fastapi p = "LOW RISK" ∨ risk_level_fastapi p = "MEDIUM RISK" ∨
        risk_level_fastapi p = "HIGH RISK") ∧
    (∀ p : ℚ, risk_level_flask p = "Low" ∨ risk_level_flask p = "Medium" ∨
        risk_level_flask p = "High") ∧
    risk_level_fastapi 3 = "HIGH RISK" ∧ risk_level_fastapi (-1) = "LOW RISK" ∧
    risk_level_flask 3 = "High" ∧ risk_level_flask (-1) = "Low" :=
  ⟨risk_level_fastapi_cases, risk_level_flask_cases,
   by norm_num [risk_level_fastapi], by norm_num [risk_level_fastapi],
   by norm_num [risk_level_flask], by norm_num [risk_level_flask]⟩

/-- Counterexample for C7 as stated: at the out-of-range probability 2
the classifiers assign a tier label (they are total functions with no
error outcome) instead of treating the input as an error. -/
theorem C7_counterexample :
    risk_level_fastapi 2 = "HIGH RISK" ∧ risk_level_flask 2 = "High" := by
  norm_num [risk_level_fastapi, risk_level_flask]

/-- C3 (amended): in the FastAPI encoder an unrecognized token for a
categorical field fails with a `ValueError` carrying the offending
field name and the full accepted value set (surfaced as HTTP 400 by
`predict`); in the Flask `preprocess_input`, however, a token that is
not an exact key of the table is not rejected: `Series.map` turns it
into `NaN` and `fillna(0)` silently substitutes the numeric code 0. -/
theorem C3_unknown_token_rejected :
    (∀ (fieldName value : String) (mapping : List (String × ℚ)),
        alookup CATEGORICAL_MAPPINGS fieldName = some mapping →
        lookupCaseInsensitive mapping value = none →
        map_categorical_to_numeric value fieldName =
          .error ⟨value, fieldName, mapping.map Prod.fst⟩) ∧
    (∀ (mapping : List (String × ℚ)) (s : String),
        alookup mapping s = none → (seriesMap mapping (.str s)).getD 0 = 0) := by
  constructor
  · intro fieldName value mapping h1 h2
    simp only [map_categorical_to_numeric, h1, h2]
  · intro mapping s h
    simp only [seriesMap, h, Option.getD_none]

/-- Witness for C3 at the unrecognized token `"maybe"` for
`is_smoking`. -/
theorem C3_witness :
    map_categorical_to_numeric "maybe" "is_smoking" =
      .error ⟨"maybe", "is_smoking", ["YES", "NO", "Yes", "No"]⟩ :=
  C3_unknown_token_rejected.1 "is_smoking" "maybe"
    [("YES", 1), ("NO", 0), ("Yes", 1), ("No", 0)] rfl (by decide)

/-- Counterexample for C3 as stated: in the Flask pipeline the
unrecognized token `"Yes"` for `is_smoking` is not rejected with an
InvalidInput error — preprocessing succeeds, the feature silently
becomes the numeric code 0 (fourth vector slot), and `/predict`
answers 200. -/
theorem C3_counterexample :
    preprocess_input_flask (mkFlaskRecord (.str "Yes") (.num 80)) =
      some [50, 2, 1, 0, 0, 0, 0, 0, 0, 170, 110, 70, 22, 65, 80] ∧
    flask_predict_status (mkFlaskRecord (.str "Yes") (.num 80)) = 200 :=
  ⟨rfl, rfl⟩

/-- C4 (amended): the FastAPI encoder is case-insensitive — any two
casing variants of a valid token receive the same numeric code; the
Flask `preprocess_input`, however, compares tokens exactly against its
uppercase table (`"YES"` maps to 1 while `"Yes"` maps to `NaN`). -/
theorem C4_encoder_case_insensitive :
    (∀ (fieldName v1 v2 : String) (n : ℚ),
        pyUpper v1 = pyUpper v2 →
        map_categorical_to_numeric v1 fieldName = .ok (.num n) →
        map_categorical_to_numeric v2 fieldName = .ok (.num n)) ∧
    (seriesMap [("YES", 1), ("NO", 0)] (.str "YES") = some 1 ∧
     seriesMap [("YES", 1), ("NO", 0)] (.str "Yes") = none) := by
  constructor
  · intro fieldName v1 v2 n hup h
    rcases hm : alookup CATEGORICAL_MAPPINGS fieldName with _ | mapping
    · simp only [map_categorical_to_numeric, hm] at h
      simp at h
    · simp only [map_categorical_to_numeric, hm] at h ⊢
      rw [lookupCaseInsensitive_congr mapping hup] at h
      rcases hl : lookupCaseInsensitive mapping v2 with _ | m
      · rw [hl] at h
        simp at h
      · rw [hl] at h
        exact h
  · exact ⟨rfl, rfl⟩

/-- Witness for C4: `"yes"` and `"YES"` have equal uppercasings and
`"yes"` encodes to 1 for `is_smoking`, so `"YES"` encodes to 1 too. -/
theorem C4_witness :
    map_categorical_to_numeric "YES" "is_smoking" = .ok (.num 1) :=
  C4_encoder_case_insensitive.1 "is_smoking" "yes" "YES" 1 (by decide) rfl

/-- Counterexample for C4 as stated: in the Flask pipeline the casing
variants `"Yes"` and `"YES"` of the same valid token receive DIFFERENT
numeric codes (0 via the silent NaN-to-0 substitution versus 1). -/
theorem C4_counterexample :
    (preprocess_input_flask (mkFlaskRecord (.str "Yes") (.num 80))).map
      (fun v => v.getD 3 0) = some 0 ∧
    (preprocess_input_flask (mkFlaskRecord (.str "YES") (.num 80))).map
      (fun v => v.getD 3 0) = some 1 ∧
    (0 : ℚ) ≠ 1 :=
  ⟨rfl, rfl, by norm_num⟩

/-- C5 (amended): the `generate_recommendations` of `backend/app.py`
truncates to at most 8 entries for every input; the root-level server's
`generate_recommendations` applies no cap at all — on `k` copies of a
high-`sysBP` risk factor it returns at least `k` entries. -/
theorem C5_recommendation_cap :
    (∀ (risk_factors : List AppRiskFactor) (risk_level : String)
        (data : Option (List (String × ℚ))),
        (generate_recommendations_fastapi risk_factors risk_level data).length ≤ 8) ∧
    (∀ k : ℕ, k ≤ (generate_recommendations_root (List.replicate k ⟨"sysBP", 150⟩) k).length) := by
  constructor
  · intro rfs lvl data
    unfold generate_recommendations_fastapi
    rw [List.length_take]
    exact min_le_left _ _
  · intro k
    unfold generate_recommendations_root
    split_ifs <;>
      simp only [List.length_append, List.length_cons, List.length_nil,
        root_factor_recommendations_replicate] <;> omega

/-- Counterexample for C5 as stated: the root-level generator fed ten
high-`sysBP` risk factors returns 14 recommendations, above both
observed caps (5 and 8). -/
theorem C5_counterexample :
    (generate_recommendations_root (List.replicate 10 ⟨"sysBP", 150⟩) 10).length = 14 ∧
    8 < 14 :=
  ⟨rfl, by norm_num⟩

/-- C8 (amended): the Flask Risk Factor Analyzer skips absent fields
(an absent feature contributes nothing and raises nothing), and it
returns a risk-factor list without raising on every record whose
present ranged values parse as floats — but it is NOT total: a present
unparsable value makes `float(...)` raise (see the counterexample). -/
theorem C8_analyzer_totality :
    (∀ (f : String) (lo hi : ℚ) (data : List (String × JVal)),
        alookup data f = none → rangeCheck f lo hi data = .ok []) ∧
    (∀ data : List (String × JVal), all_ranged_parse data = true →
        ∃ l, analyze_risk_factors data = .ok l) := by
  constructor
  · intro f lo hi data h
    simp only [rangeCheck, h]
  · intro data h
    obtain ⟨l, hl⟩ := rangeChecks_ok FLASK_RANGES data (by
      unfold all_ranged_parse at h
      exact h)
    exact ⟨l ++ catCheck data "is_smoking" "smoking" ++ catCheck data "diabetes" "diabetes"
      ++ catCheck data "prevalentHyp" "hypertension",
      by simp only [analyze_risk_factors, hl]; rfl⟩

/-- Witness for C8: the absent-field clause at the empty record, and
totality at a fully healthy all-numeric record. -/
theorem C8_witness :
    (alookup ([] : List (String × JVal)) "age" = none ∧
     rangeCheck "age" 18 65 [] = .ok []) ∧
    (all_ranged_parse healthyFlaskRecord = true ∧
     ∃ l, analyze_risk_factors healthyFlaskRecord = .ok l) :=
  ⟨⟨rfl, C8_analyzer_totality.1 "age" 18 65 [] rfl⟩,
   ⟨by decide, C8_analyzer_totality.2 healthyFlaskRecord (by decide)⟩⟩

/-- Counterexample for C8 as stated: the present value `"abc"` for
`age` makes the analyzer raise `ValueError` (in the servers this
surfaces as HTTP 500), so not every present field value is safe. -/
theorem C8_counterexample :
    analyze_risk_factors [("age", JVal.str "abc")] =
      .error "ValueError: could not convert value to float" := rfl

/-- C9: in the FastAPI `/predict` handler a request with
`diabetes = "YES"` (encoded 1) produces TWO distinct risk-factor
entries for `diabetes` — one from the range check against the
`NORMAL_RANGES` maximum of 0 (carrying `normal_max = 0`) and one from
the categorical special case (carrying no `normal_max`) — and likewise
for `prevalentHyp = "YES"`. -/
theorem C9_duplicate_risk_factors (r : EncodedRecord) :
    (r.diabetes = 1 →
      (⟨"diabetes", r.diabetes, some 0, "High"⟩ : AppRiskFactor) ∈ app_risk_factors r ∧
      (⟨"diabetes", r.diabetes, none, "High"⟩ : AppRiskFactor) ∈ app_risk_factors r) ∧
    (r.prevalentHyp = 1 →
      (⟨"prevalentHyp", r.prevalentHyp, some 0, "High"⟩ : AppRiskFactor) ∈ app_risk_factors r ∧
      (⟨"prevalentHyp", r.prevalentHyp, none, "High"⟩ : AppRiskFactor) ∈ app_risk_factors r) := by
  constructor
  · intro h
    constructor <;>
    · unfold app_risk_factors
      refine List.mem_flatMap.mpr ⟨("diabetes", r.diabetes), by simp [data_dict], ?_⟩
      rw [h]
      decide
  · intro h
    constructor <;>
    · unfold app_risk_factors
      refine List.mem_flatMap.mpr ⟨("prevalentHyp", r.prevalentHyp), by simp [data_dict], ?_⟩
      rw [h]
      decide

/-- Witness for C9 at a concrete record with `diabetes = 1` and
`prevalentHyp = 1`. -/
theorem C9_witness :
    (⟨"diabetes", 1, some 0, "High"⟩ : AppRiskFactor) ∈ app_risk_factors diabeticRecord ∧
    (⟨"diabetes", 1, none, "High"⟩ : AppRiskFactor) ∈ app_risk_factors diabeticRecord ∧
    (⟨"prevalentHyp", 1, some 0, "High"⟩ : AppRiskFactor) ∈ app_risk_factors diabeticRecord :=
  ⟨((C9_duplicate_risk_factors diabeticRecord).1 rfl).1,
   ((C9_duplicate_risk_factors diabeticRecord).1 rfl).2,
   ((C9_duplicate_risk_factors diabeticRecord).2 rfl).1⟩

/-- C10 (amended): in the Flask preprocessing path both a categorical
token that does not exactly match the uppercase table (`"Yes"`) and an
unparsable numeric field (`"abc"`) are mapped to `NaN` and replaced by
0 before scaling, and the request is never rejected as invalid input.
With only an unrecognized categorical token, `/predict` answers 200
with the prediction computed on the silently zero-substituted vector
(fourth slot).  With an unparsable RANGED numeric field such as
`glucose = "abc"`, the zero-substituted vector is still built (last
slot 0), but the handler then calls `analyze_risk_factors` on the raw
record, `float("abc")` raises, and the response is a generic HTTP 500
instead of 200. -/
theorem C10_silent_zero_substitution :
    (preprocess_input_flask (mkFlaskRecord (.str "Yes") (.num 80)) =
        some [50, 2, 1, 0, 0, 0, 0, 0, 0, 170, 110, 70, 22, 65, 80] ∧
      flask_predict_status (mkFlaskRecord (.str "Yes") (.num 80)) = 200) ∧
    (preprocess_input_flask (mkFlaskRecord (.str "Yes") (.str "abc")) =
        some [50, 2, 1, 0, 0, 0, 0, 0, 0, 170, 110, 70, 22, 65, 0] ∧
      analyze_risk_factors (mkFlaskRecord (.str "Yes") (.str "abc")) =
        .error "ValueError: could not convert value to float" ∧
      flask_predict_status (mkFlaskRecord (.str "Yes") (.str "abc")) = 500) :=
  ⟨⟨rfl, rfl⟩, rfl, rfl, rfl⟩

/-- Counterexample for C10 as stated: at the claim's own exemplar of an
unparsable numeric field (`glucose = "abc"`), `/predict` does NOT
return a 200 response — the zero-substituted vector is built, but
`analyze_risk_factors(data)` then raises on the raw value and the
handler answers 500. -/
theorem C10_counterexample :
    flask_predict_status (mkFlaskRecord (.str "Yes") (.str "abc")) = 500 ∧
    (500 : ℕ) ≠ 200 :=
  ⟨rfl, by norm_num⟩

/-- Every entry emitted by the FastAPI loop body for an item carries
that item's feature name. -/
lemma riskFactorChecks_feature (f : String) (v : ℚ) :
    ∀ x ∈ riskFactorChecks f v, x.feature = f := by
  intro x hx
  unfold riskFactorChecks at hx
  simp only [List.mem_append] at hx
  rcases hx with ((h | h) | h) | h
  · rcases hm : alookup NORMAL_RANGES_max f with _ | mx
    · simp [hm] at h
    · simp only [hm] at h
      split_ifs at h <;> simp_all
  · split_ifs at h <;> simp_all
  · split_ifs at h <;> simp_all
  · split_ifs at h <;> simp_all

/-- C1 (amended): the Flask analyzer flags a present, parsed continuous
value strictly above the max as `'High'`, strictly below the min as
`'Low'`, and emits nothing inside `[min, max]`; a record with
`sysBP = 200` yields exactly a `'High'` risk factor for `sysBP`.  The
FastAPI `predict` loop, in contrast, flags `sysBP` as `'High'` strictly
above its max of 120 but emits NO `sysBP` entry otherwise — in
particular none below the min. -/
theorem C1_range_flags :
    (∀ (f : String) (lo hi : ℚ) (data : List (String × JVal)) (v : JVal) (q : ℚ),
        lo ≤ hi → alookup data f = some v → pyFloat v = some q →
        (hi < q → rangeCheck f lo hi data = .ok [⟨f, .num q, "High"⟩]) ∧
        (q < lo → rangeCheck f lo hi data = .ok [⟨f, .num q, "Low"⟩]) ∧
        (lo ≤ q → q ≤ hi → rangeCheck f lo hi data = .ok [])) ∧
    analyze_risk_factors flaskBP200 = .ok [⟨"sysBP", .num 200, "High"⟩] ∧
    (∀ r : EncodedRecord, 120 < r.sysBP →
        (⟨"sysBP", r.sysBP, some 120, "High"⟩ : AppRiskFactor) ∈ app_risk_factors r) ∧
    (∀ r : EncodedRecord, r.sysBP ≤ 120 →
        ∀ x ∈ app_risk_factors r, x.feature ≠ "sysBP") := by
  refine ⟨?_, ?_, ?_, ?_⟩
  · intro f lo hi data v q hlohi hv hq
    refine ⟨fun hgt => ?_, fun hlt => ?_, fun hge hle => ?_⟩
    · simp only [rangeCheck, hv, hq]
      rw [if_pos (Or.inr hgt), if_pos hgt]
    · simp only [rangeCheck, hv, hq]
      rw [if_pos (Or.inl hlt), if_neg (by linarith : ¬hi < q)]
    · simp only [rangeCheck, hv, hq]
      rw [if_neg (by push_neg; exact ⟨hge, hle⟩ : ¬(q < lo ∨ hi < q))]
  · simp [analyze_risk_factors, rangeChecks, rangeCheck, catCheck, FLASK_RANGES,
      flaskBP200, alookup, pyFloat, Except.bind]
    norm_num
    rfl
  · intro r h
    unfold app_risk_factors
    refine List.mem_flatMap.mpr ⟨("sysBP", r.sysBP), by simp [data_dict], ?_⟩
    have halk : alookup NORMAL_RANGES_max "sysBP" = some 120 := rfl
    simp only [riskFactorChecks, halk]
    simp [h]
  · intro r h x hx
    unfold app_risk_factors at hx
    obtain ⟨fv, hfv, hxin⟩ := List.mem_flatMap.mp hx
    have hfeat := riskFactorChecks_feature fv.1 fv.2 x hxin
    intro hcontra
    rw [hcontra] at hfeat
    have h' : ¬((120 : ℚ) < r.sysBP) := not_lt.mpr h
    simp only [data_dict, List.mem_cons, List.mem_singleton, List.not_mem_nil, or_false] at hfv
    rcases hfv with rfl | rfl | rfl | rfl | rfl | rfl | rfl | rfl | rfl | rfl | rfl | rfl |
      rfl | rfl | rfl <;>
      first
        | (simp at hfeat; done)
        | simp [riskFactorChecks, h',
            show alookup NORMAL_RANGES_max "sysBP" = some 120 from rfl] at hxin

/-- Witness for C1: the Flask range check on `sysBP = 200` against
`[90, 140]` and the FastAPI loop on a record with `sysBP = 200`. -/
theorem C1_witness :
    rangeCheck "sysBP" 90 140 flaskBP200 = .ok [⟨"sysBP", .num 200, "High"⟩] ∧
    (⟨"sysBP", 200, some 120, "High"⟩ : AppRiskFactor) ∈ app_risk_factors bp200Record :=
  ⟨(C1_range_flags.1 "sysBP" 90 140 flaskBP200 (.num 200) 200 (by norm_num) rfl rfl).1
      (by norm_num),
   C1_range_flags.2.2.1 bp200Record (by norm_num [bp200Record])⟩

/-- Counterexample for C1 as stated: the FastAPI `predict` loop emits
NO risk factor at all for a record whose `sysBP = 50` lies strictly
below the `NORMAL_RANGES` minimum of 90 — there is no `'Low'` tag in
this variant. -/
theorem C1_counterexample :
    lowBPRecord.sysBP < 90 ∧ app_risk_factors lowBPRecord = [] := by
  constructor
  · norm_num [lowBPRecord]
  · simp [app_risk_factors, data_dict, riskFactorChecks, NORMAL_RANGES_max, alookup,
      lowBPRecord]
    norm_num

/-- C6 (code bug): the preventive pass of `generate_recommendations` in
`backend/app.py` is unreachable from `predict`.  The classifier only
produces the labels `'LOW RISK'`/`'MEDIUM RISK'`/`'HIGH RISK'`, never
`'Low'`, so for every probability, risk-factor list and data dict the
returned recommendations contain NO entry of priority `'preventive'` —
even though the preventive generator itself is non-trivial: on a
healthy record with `heartRate = 95` (strictly between 85% and 100% of
its normal maximum 100) it would emit a monitoring recommendation. -/
theorem C6_preventive_pass_unreachable :
    (∀ p : ℚ, risk_level_fastapi p ≠ "Low") ∧
    (∀ (risk_factors : List AppRiskFactor) (data : Option (List (String × ℚ))) (p : ℚ),
        (generate_recommendations_fastapi risk_factors (risk_level_fastapi p) data).countP
          (fun c => decide (c.priority = "preventive")) = 0) ∧
    generate_preventive_recommendations demoLowData ≠ [] := by
  have hne : ∀ p : ℚ, risk_level_fastapi p ≠ "Low" := by
    intro p
    rcases risk_level_fastapi_cases p with h | h | h <;> rw [h] <;> decide
  refine ⟨hne, ?_, ?_⟩
  · intro rfs data p
    have hbase : (fastapi_base_recommendations (risk_level_fastapi p)).countP
        (fun c => decide (c.priority = "preventive")) = 0 := by
      unfold fastapi_base_recommendations
      split_ifs <;> decide
    have hfac : (fastapi_factor_recommendations rfs).countP
        (fun c => decide (c.priority = "preventive")) = 0 := by
      rw [List.countP_eq_zero]
      intro c hc
      unfold fastapi_factor_recommendations at hc
      obtain ⟨factor, hfm, hcseg⟩ := List.mem_flatMap.mp hc
      split_ifs at hcseg <;>
        simp only [List.mem_singleton, List.not_mem_nil] at hcseg <;>
        simp [hcseg]
    have hprev : (fastapi_preventive_block (risk_level_fastapi p) data).countP
        (fun c => decide (c.priority = "preventive")) = 0 := by
      cases data with
      | none => rfl
      | some d =>
          rw [show fastapi_preventive_block (risk_level_fastapi p) (some d) =
                (if risk_level_fastapi p = "Low" ∧ d ≠ [] then
                  generate_preventive_recommendations d
                 else []) from rfl,
            if_neg (fun hcon => hne p hcon.1)]
          rfl
    refine Nat.le_zero.mp ?_
    calc (generate_recommendations_fastapi rfs (risk_level_fastapi p) data).countP
          (fun c => decide (c.priority = "preventive"))
        ≤ (fastapi_base_recommendations (risk_level_fastapi p)
            ++ fastapi_factor_recommendations rfs
            ++ fastapi_preventive_block (risk_level_fastapi p) data).countP
            (fun c => decide (c.priority = "preventive")) := by
          unfold generate_recommendations_fastapi
          exact List.Sublist.countP_le _ (List.take_sublist _ _)
      _ = 0 := by
          rw [List.countP_append, List.countP_append, hbase, hfac, hprev]
  · simp [generate_preventive_recommendations, demoLowData, data_dict, NORMAL_RANGES_max,
      alookup]
    norm_num
